import Mathlib

/-!
Verification development for the BCN Art Compass Telegram relay bot
(`src/bot.py`).  The bot forwards text messages to an HTTP backend and
replies with a lightly reformatted answer.  Text is modelled as
`List Char` (Python `str` is a sequence of code points, which matches
Lean `Char` lists), fallible operations as `Except`, and the outcome of
the single outbound HTTP exchange as an explicit inductive so that the
exception-handling structure of the Python code is visible.
-/

namespace BcnBot

/-! ## Python whitespace

`str.strip()` and the regex class `\s` (on `str` patterns) both use the
Unicode whitespace set of CPython.  We enumerate it explicitly. -/

def isPySpace (c : Char) : Bool :=
  c = ' ' || c = '\t' || c = '\n' || c = '\r' ||
  c = Char.ofNat 0x0B || c = Char.ofNat 0x0C ||
  c = Char.ofNat 0x1C || c = Char.ofNat 0x1D ||
  c = Char.ofNat 0x1E || c = Char.ofNat 0x1F ||
  c = Char.ofNat 0x85 || c = Char.ofNat 0xA0 ||
  c = Char.ofNat 0x1680 ||
  (0x2000 ≤ c.toNat && c.toNat ≤ 0x200A) ||
  c = Char.ofNat 0x2028 || c = Char.ofNat 0x2029 ||
  c = Char.ofNat 0x202F || c = Char.ofNat 0x205F ||
  c = Char.ofNat 0x3000

/-- Python `str.strip()`: remove leading and trailing whitespace.
Implemented as: drop the leading whitespace run, then drop the leading
whitespace run of the reversal and reverse back. -/
def pyStripChars (l : List Char) : List Char :=
  (((l.dropWhile isPySpace).reverse.dropWhile isPySpace)).reverse

/-- Python `str.strip()` on `String`. -/
def pyStrip (s : String) : String :=
  String.mk (pyStripChars s.data)

/-! ## Configuration loading (`_load_config`, bot.py lines 21-33)

`os.getenv` returns `None` when a variable is absent; the defaults of
the source are applied with `Option.getD`.  `getattr(logging, name,
logging.INFO)` is modelled by the table of numeric level constants of
the `logging` module (DEBUG=10, INFO=20, WARNING/WARN=30, ERROR=40,
CRITICAL/FATAL=50, NOTSET=0), falling back to INFO=20.  A raised
`RuntimeError` is an `Except.error` carrying the message. -/

structure ConfigEnv where
  telegram_bot_token : Option String
  bcn_api_base_url : Option String
  bcn_bot_log_level : Option String

def logLevelOfName : String → Option Nat
  | "CRITICAL" => some 50
  | "FATAL" => some 50
  | "ERROR" => some 40
  | "WARNING" => some 30
  | "WARN" => some 30
  | "INFO" => some 20
  | "DEBUG" => some 10
  | "NOTSET" => some 0
  | _ => none

/-- Python `str.upper()`, as a per-character map (the level names at
stake are ASCII). -/
def pyUpper (s : String) : String :=
  String.mk (s.data.map Char.toUpper)

def tokenMissingMsg : String :=
  "TELEGRAM_BOT_TOKEN is not set. Configure it in the environment or .env file."

def _load_config (env : ConfigEnv) : Except String (String × String × Nat) :=
  let token := env.telegram_bot_token.getD ""
  let api_base := env.bcn_api_base_url.getD "http://localhost:8000"
  let log_level_name := pyUpper (env.bcn_bot_log_level.getD "INFO")
  let log_level := (logLevelOfName log_level_name).getD 20
  if token = "" then
    Except.error tokenMissingMsg
  else
    Except.ok (token, api_base, log_level)

/-! ## Backend client (`call_bcn_api`, bot.py lines 48-66)

One HTTP POST is attempted.  Its outcome, as seen by the `try` body, is
one of: a 2xx response whose body parsed as JSON, a non-2xx response
(`raise_for_status` raises), a network error, a timeout, or a 2xx
response whose body is not JSON (`resp.json()` raises).  The FastAPI
envelope is `{"response": ..., "correlation_id": ...}`; only the
`response` field is consumed, via `data.get("response")`, which yields
`None` when the key is absent. -/

structure ChatResponse where
  response : Option String

inductive BackendOutcome where
  | success (data : ChatResponse)
  | httpStatusError
  | networkError
  | timeout
  | jsonDecodeError

def noResponseFallback : String := "No response from BCN Art Compass."

/-- The apology string of bot.py lines 63-66 (two adjacent literals
concatenated by Python).  The apostrophe is spelled via its code. -/
def apologyText : String :=
  "I couldn" ++ String.mk [Char.ofNat 39] ++
  "t reach the BCN Art Compass backend right now. " ++
  "Please try again in a moment."

/-- The `try` body of `call_bcn_api`: raising is `Except.error`.
`data.get("response") or fallback` takes the fallback whenever the
field is absent (`None`) or falsy (the empty string). -/
def call_bcn_api_body (outcome : BackendOutcome) : Except Unit String :=
  match outcome with
  | .success data =>
      match data.response with
      | some r => Except.ok (if r = "" then noResponseFallback else r)
      | none => Except.ok noResponseFallback
  | .httpStatusError => Except.error ()
  | .networkError => Except.error ()
  | .timeout => Except.error ()
  | .jsonDecodeError => Except.error ()

/-- Model of `call_bcn_api`: the `except Exception` handler turns every raised
error into the fixed apology string, so the function always returns a
string to its caller.  `user_id` and `message` only feed the request
payload and do not influence the returned text. -/
def call_bcn_api (user_id message : String) (outcome : BackendOutcome) : String :=
  match call_bcn_api_body outcome with
  | Except.ok s => s
  | Except.error _ => apologyText

/-! ## Telegram update model and `_telegram_user_id` (bot.py lines 94-102)

Python truthiness drives the fallback chain: a `None` user, a `None` or
empty username, and a zero numeric id are all falsy. -/

structure TgUser where
  username : Option String
  id : Nat

structure TgChat where
  id : Int

structure TgMessage where
  text : Option String

structure TgUpdate where
  message : Option TgMessage
  effective_user : Option TgUser
  effective_chat : Option TgChat

/-- Third and fourth steps of the chain: `effective_chat and
effective_chat.id`, else the sentinel. -/
def userIdFromChat (upd : TgUpdate) : String :=
  match upd.effective_chat with
  | some chat => if chat.id = 0 then "tg_unknown" else "tg_chat_" ++ toString chat.id
  | none => "tg_unknown"

/-- Second step of the chain: `effective_user.id` truthy. -/
def userIdFromNumeric (user : TgUser) (upd : TgUpdate) : String :=
  if user.id = 0 then userIdFromChat upd else "tg_id_" ++ toString user.id

def _telegram_user_id (upd : TgUpdate) : String :=
  match upd.effective_user with
  | some user =>
      match user.username with
      | some name => if name = "" then userIdFromNumeric user upd else "tg_" ++ name
      | none => userIdFromNumeric user upd
  | none => userIdFromChat upd

/-! ## Response formatter (`_format_for_telegram`, bot.py lines 105-129)

Each `re.sub` call is one left-to-right scan: at each position the
scanner tries the (deterministic, because greedy subpatterns are
bounded by a forbidden character) pattern; on a match it emits the
replacement and resumes right after the matched text, otherwise it
emits one character and advances.  Each scan consumes at least one
character per step, so fuel equal to the input length always suffices;
the wrappers pass exactly that.

The decorative marker literals of the source file are mojibake: the
file stores, for example, not the artist-palette emoji but the code
points obtained by decoding its UTF-8 bytes as cp1252 (with undecodable
bytes dropped).  We embed exactly the code-point sequences present in
the file, as fixed marker tokens whose glyphs are irrelevant. -/

/-- Replacement marker of the bold rule (line 113). -/
def boldMarker : List Char :=
  [Char.ofNat 0xF0, Char.ofNat 0x178, Char.ofNat 0x17D, Char.ofNat 0xA8]

/-- Replacement marker of the `Why you...:` rule (line 116). -/
def whyMarker : List Char :=
  [Char.ofNat 0xF0, Char.ofNat 0x178, Char.ofNat 0x2019, Char.ofNat 0xA1]

/-- Replacement marker of the `When:` rule (line 117). -/
def whenMarker : List Char :=
  [Char.ofNat 0xF0, Char.ofNat 0x178, Char.ofNat 0x201C, Char.ofNat 0x2026]

/-- Replacement marker of the `Where:` and `Location:` rules (lines 118-119). -/
def whereMarker : List Char :=
  [Char.ofNat 0xF0, Char.ofNat 0x178, Char.ofNat 0x201C]

/-- Replacement marker of the `Price:` rule (line 120). -/
def priceMarker : List Char :=
  [Char.ofNat 0xF0, Char.ofNat 0x178, Char.ofNat 0x2019, Char.ofNat 0xB0]

/-- Replacement marker of the `More Info:` rule (line 121). -/
def moreInfoMarker : List Char :=
  [Char.ofNat 0xF0, Char.ofNat 0x178, Char.ofNat 0x201D, Char.ofNat 0x2014]

/-- Marker that follows the digits in the numbered-list rule (line 124). -/
def numListMarker : List Char :=
  [Char.ofNat 0xEF, Char.ofNat 0xB8, Char.ofNat 0xE2, Char.ofNat 0x192, Char.ofNat 0xA3]

/-- Test whether the second list starts with the first one. -/
def startsWithChars : List Char → List Char → Bool
  | [], _ => true
  | _ :: _, [] => false
  | p :: ps, c :: cs => p == c && startsWithChars ps cs

/-- Model of the bold rule (line 113): re.sub with pattern
`\*\*([^*]+)\*\*` and replacement marker, space, group.  After `**`,
the greedy `[^*]+` takes the maximal nonempty run of non-asterisks,
which must be followed by `**`; otherwise no match starts here and the
scan advances one character. -/
def subBoldGo : Nat → List Char → List Char
  | 0, l => l
  | _ + 1, [] => []
  | fuel + 1, c :: rest =>
      if c == '*' && rest.head? == some '*' then
        let rest2 := rest.drop 1
        let grp := rest2.takeWhile (fun d => d != '*')
        let after := rest2.drop grp.length
        if !grp.isEmpty && after.head? == some '*' && (after.drop 1).head? == some '*' then
          (boldMarker ++ ' ' :: grp) ++ subBoldGo fuel (after.drop 2)
        else
          c :: subBoldGo fuel rest
      else
        c :: subBoldGo fuel rest

/-- Model of the rule of line 116: re.sub with pattern
`(Why you[^:]*:)` and replacement marker, space, group: the literal
`Why you`, then the maximal run of non-colons, then `:`. -/
def subWhyYouGo : Nat → List Char → List Char
  | 0, l => l
  | _ + 1, [] => []
  | fuel + 1, c :: rest =>
      if startsWithChars "Why you".data (c :: rest) then
        let afterLit := (c :: rest).drop 7
        let mid := afterLit.takeWhile (fun d => d != ':')
        let after := afterLit.drop mid.length
        if after.head? == some ':' then
          (whyMarker ++ ' ' :: ("Why you".data ++ mid ++ [':'])) ++
            subWhyYouGo fuel (after.drop 1)
        else
          c :: subWhyYouGo fuel rest
      else
        c :: subWhyYouGo fuel rest

/-- Model of the field-label rules of lines 117-121: re.sub of a
literal pattern `pat` (a label such as `When:`) with replacement
marker, space, pat (the group is the whole match). -/
def subLabelGo (pat marker : List Char) : Nat → List Char → List Char
  | 0, l => l
  | _ + 1, [] => []
  | fuel + 1, c :: rest =>
      if !pat.isEmpty && startsWithChars pat (c :: rest) then
        (marker ++ ' ' :: pat) ++ subLabelGo pat marker fuel ((c :: rest).drop pat.length)
      else
        c :: subLabelGo pat marker fuel rest

/-- Model of the numbered-list rule of line 124: re.sub with pattern
`^(\d+)\.\s+`, MULTILINE, and replacement newline, digits, marker,
space.  At a line start (`atStart`): a maximal nonempty digit run, a
dot, then a maximal nonempty whitespace run.  After a match the next
position is at a line start exactly when the last consumed whitespace
character was a newline. -/
def subNumListGo : Nat → Bool → List Char → List Char
  | 0, _, l => l
  | _ + 1, _, [] => []
  | fuel + 1, atStart, c :: rest =>
      let ds := (c :: rest).takeWhile Char.isDigit
      let afterDs := (c :: rest).drop ds.length
      if atStart && !ds.isEmpty && afterDs.head? == some '.' then
        let afterDot := afterDs.drop 1
        let ws := afterDot.takeWhile isPySpace
        if !ws.isEmpty then
          ('\n' :: ds ++ numListMarker ++ [' ']) ++
            subNumListGo fuel (ws.getLast? == some '\n') (afterDot.drop ws.length)
        else
          c :: subNumListGo fuel (c == '\n') rest
      else
        c :: subNumListGo fuel (c == '\n') rest

/-- Model of the blank-line rule of line 127, re.sub with pattern
three-or-more newlines replaced by two: every maximal run of
three or more consecutive newlines becomes exactly two; shorter runs
are untouched.  `k` counts the newlines already emitted for the
current run (saturating at the point where further newlines of the
run are dropped). -/
def collapseNLGo : Nat → List Char → List Char
  | _, [] => []
  | k, c :: rest =>
      if c == '\n' then
        if 2 ≤ k then collapseNLGo k rest
        else '\n' :: collapseNLGo (k + 1) rest
      else
        c :: collapseNLGo 0 rest

/-- Model of `_format_for_telegram` (bot.py lines 105-129): the ordered rule
pipeline, ending with the blank-line collapse and `str.strip()`. -/
def _format_for_telegram (l : List Char) : List Char :=
  let t1 := subBoldGo l.length l
  let t2 := subWhyYouGo t1.length t1
  let t3 := subLabelGo "When:".data whenMarker t2.length t2
  let t4 := subLabelGo "Where:".data whereMarker t3.length t3
  let t5 := subLabelGo "Location:".data whereMarker t4.length t4
  let t6 := subLabelGo "Price:".data priceMarker t5.length t5
  let t7 := subLabelGo "More Info:".data moreInfoMarker t6.length t6
  let t8 := subNumListGo t7.length true t7
  let t9 := collapseNLGo 0 t8
  pyStripChars t9

/-- Wrapper of `_format_for_telegram` on `String`. -/
def formatForTelegramStr (s : String) : String :=
  String.mk (_format_for_telegram s.data)

/-! ## Message handler (`handle_message`, bot.py lines 132-158)

The observable behaviour of the handler is the sequence of outbound actions
it performs; an uncaught exception (the typing-indicator send failing,
or `update.effective_chat` being `None` when its `.id` is read) aborts
the handler and is modelled as `Except.error`. -/

inductive BotAction where
  | sendChatAction (chat_id : Int) (action : String)
  | backendCall (user_id message : String)
  | reply (text : String)
deriving DecidableEq

structure BotEnv where
  /-- whether `context.bot.send_chat_action` succeeds -/
  typingOk : Bool
  /-- outcome of the single HTTP exchange of `call_bcn_api` -/
  outcome : BackendOutcome

/-- Truncation of bot.py lines 153-154: texts longer than 4000
characters are cut to their first 3996 characters plus `...`. -/
def truncate_for_telegram (l : List Char) : List Char :=
  if l.length > 4000 then l.take 3996 ++ "...".data else l

def handle_message (upd : TgUpdate) (env : BotEnv) : Except Unit (List BotAction) :=
  match upd.message with
  | none => Except.ok []
  | some m =>
      match m.text with
      | none => Except.ok []
      | some t =>
          if t = "" then Except.ok []
          else
            let text := pyStrip t
            let user_id := _telegram_user_id upd
            match upd.effective_chat with
            | none => Except.error ()
            | some chat =>
                if env.typingOk then
                  let response_text := call_bcn_api user_id text env.outcome
                  let formatted_text := formatForTelegramStr response_text
                  let final_text := String.mk (truncate_for_telegram formatted_text.data)
                  Except.ok [BotAction.sendChatAction chat.id "typing",
                             BotAction.backendCall user_id text,
                             BotAction.reply final_text]
                else Except.error ()

/-! ## Specification-side predicate

`hasTripleFrom k l` decides whether `l`, read as the continuation of a
text whose last `k` characters were newlines, contains a run of three
consecutive newlines. -/

def hasTripleFrom : Nat → List Char → Bool
  | _, [] => false
  | k, c :: rest =>
      if c == '\n' then
        if 2 ≤ k then true else hasTripleFrom (k + 1) rest
      else hasTripleFrom 0 rest

theorem hasTripleFrom_cons_triple (k : Nat) (t : List Char) :
    hasTripleFrom k ('\n' :: '\n' :: '\n' :: t) = true := by
  simp only [hasTripleFrom]
  split_ifs with h1 h2 h3 <;> first | rfl | omega | simp_all

theorem hasTripleFrom_append_triple (s : List Char) (k : Nat) (t : List Char) :
    hasTripleFrom k (s ++ '\n' :: '\n' :: '\n' :: t) = true := by
  induction s generalizing k with
  | nil => exact hasTripleFrom_cons_triple k t
  | cons c s ih =>
      simp only [List.cons_append, hasTripleFrom]
      split_ifs with h1 h2
      · rfl
      · exact ih (k + 1)
      · exact ih 0

theorem collapseNLGo_no_triple (l : List Char) :
    ∀ k, k ≤ 2 → hasTripleFrom k (collapseNLGo k l) = false := by
  induction l with
  | nil => intro k _; rfl
  | cons c rest ih =>
      intro k hk
      simp only [collapseNLGo]
      by_cases hc : c == '\n'
      · rw [if_pos hc]
        by_cases h2 : 2 ≤ k
        · rw [if_pos h2]; exact ih k hk
        · rw [if_neg h2]
          simp only [hasTripleFrom, if_pos (by rfl : ('\n' == '\n') = true), if_neg h2]
          exact ih (k + 1) (by omega)
      · rw [if_neg hc]
        simp only [hasTripleFrom, if_neg hc]
        exact ih 0 (by omega)

theorem exists_append_dropWhile (p : Char → Bool) (l : List Char) :
    ∃ s, s ++ l.dropWhile p = l := by
  induction l with
  | nil => exact ⟨[], rfl⟩
  | cons c rest ih =>
      by_cases hc : p c
      · obtain ⟨s, hs⟩ := ih
        refine ⟨c :: s, ?_⟩
        simp only [List.dropWhile, hc, List.cons_append]
        rw [hs]
      · refine ⟨[], ?_⟩
        simp [List.dropWhile, hc]

theorem head?_dropWhile_false (p : Char → Bool) (l : List Char) (c : Char)
    (h : (l.dropWhile p).head? = some c) : p c = false := by
  induction l with
  | nil => simp at h
  | cons a rest ih =>
      by_cases ha : p a
      · apply ih
        simpa [List.dropWhile, ha] using h
      · have ha' : p a = false := by simpa using ha
        have hd : List.dropWhile p (a :: rest) = a :: rest := by
          simp [List.dropWhile, ha']
        rw [hd] at h
        simp only [List.head?, Option.some.injEq] at h
        rw [← h]
        exact ha'

theorem pyStripChars_decomp (l s m t : List Char)
    (h : pyStripChars l = s ++ m ++ t) : ∃ u v, l = u ++ m ++ v := by
  obtain ⟨s0, hs0⟩ := exists_append_dropWhile isPySpace l
  obtain ⟨s1, hs1⟩ := exists_append_dropWhile isPySpace (l.dropWhile isPySpace).reverse
  have hB : (l.dropWhile isPySpace).reverse.dropWhile isPySpace = (s ++ m ++ t).reverse := by
    have := congrArg List.reverse h
    simpa [pyStripChars] using this
  rw [hB] at hs1
  have hA : s ++ (m ++ (t ++ s1.reverse)) = l.dropWhile isPySpace := by
    have := congrArg List.reverse hs1
    simpa [List.reverse_append] using this
  refine ⟨s0 ++ s, t ++ s1.reverse, ?_⟩
  rw [← hs0, ← hA]
  simp [List.append_assoc]

theorem pyStripChars_head (l : List Char) (c : Char)
    (h : (pyStripChars l).head? = some c) : isPySpace c = false := by
  have hB : ((l.dropWhile isPySpace).reverse.dropWhile isPySpace).getLast? = some c := by
    rw [← List.head?_reverse]
    exact h
  obtain ⟨s1, hs1⟩ := exists_append_dropWhile isPySpace (l.dropWhile isPySpace).reverse
  rcases hBe : (l.dropWhile isPySpace).reverse.dropWhile isPySpace with _ | ⟨b, B⟩
  · rw [hBe] at hB; simp at hB
  · have hne : (l.dropWhile isPySpace).reverse.dropWhile isPySpace ≠ [] := by
      rw [hBe]; simp
    have hlast : ((l.dropWhile isPySpace).reverse).getLast? = some c := by
      rw [← hs1, List.getLast?_append_of_ne_nil _ hne]
      exact hB
    rw [List.getLast?_reverse] at hlast
    exact head?_dropWhile_false isPySpace _ c hlast

theorem pyStripChars_getLast (l : List Char) (c : Char)
    (h : (pyStripChars l).getLast? = some c) : isPySpace c = false := by
  have hB : ((l.dropWhile isPySpace).reverse.dropWhile isPySpace).head? = some c := by
    rw [← List.getLast?_reverse]
    exact h
  exact head?_dropWhile_false isPySpace _ c hB

theorem strip_collapse_ne (X s t : List Char) :
    pyStripChars (collapseNLGo 0 X) ≠ s ++ '\n' :: '\n' :: '\n' :: t := by
  intro h
  have h' : pyStripChars (collapseNLGo 0 X) = s ++ ['\n', '\n', '\n'] ++ t := by
    simpa [List.append_assoc] using h
  obtain ⟨u, v, huv⟩ := pyStripChars_decomp _ _ _ _ h'
  have h1 := collapseNLGo_no_triple X 0 (by omega)
  have h2 : hasTripleFrom 0 (collapseNLGo 0 X) = true := by
    rw [huv]
    simpa [List.append_assoc] using hasTripleFrom_append_triple u 0 v
  rw [h1] at h2
  exact Bool.false_ne_true h2

/-! ## Claim theorems -/

/-- Claim C1: whenever the HTTP POST of `call_bcn_api` succeeds with a
2xx status and the body parses as JSON, a non-empty `response` field is
returned verbatim, and a missing or empty `response` field yields the
literal fallback string. -/
theorem c1_backend_success_response :
    ∀ (uid msg : String) (data : ChatResponse),
      (∀ r, data.response = some r → r ≠ "" →
        call_bcn_api uid msg (BackendOutcome.success data) = r) ∧
      ((data.response = none ∨ data.response = some "") →
        call_bcn_api uid msg (BackendOutcome.success data) =
          "No response from BCN Art Compass.") := by
  intro uid msg data
  constructor
  · intro r hr hne
    simp [call_bcn_api, call_bcn_api_body, hr, hne]
  · rintro (h | h) <;>
      simp [call_bcn_api, call_bcn_api_body, h, noResponseFallback]

theorem c1_backend_success_witness :
    ("hello" : String) ≠ "" ∧
      call_bcn_api "u" "m" (BackendOutcome.success ⟨some "hello"⟩) = "hello" :=
  ⟨by decide, (c1_backend_success_response "u" "m" ⟨some "hello"⟩).1 "hello" rfl (by decide)⟩

/-- Claim C2: on every failure of the backend exchange (network error,
timeout, non-2xx status, malformed JSON body) `call_bcn_api` returns
the fixed apology string; the catch-all handler means no exception
reaches the caller (the model function is total with result type
`String`). -/
theorem c2_backend_failure_apology :
    ∀ (uid msg : String) (o : BackendOutcome),
      (o = BackendOutcome.httpStatusError ∨ o = BackendOutcome.networkError ∨
        o = BackendOutcome.timeout ∨ o = BackendOutcome.jsonDecodeError) →
      call_bcn_api uid msg o = apologyText := by
  rintro uid msg o (rfl | rfl | rfl | rfl) <;> rfl

theorem c2_backend_failure_witness :
    call_bcn_api "u" "m" BackendOutcome.networkError = apologyText :=
  c2_backend_failure_apology "u" "m" BackendOutcome.networkError (Or.inr (Or.inl rfl))

/-- Claim C3: the reply-size clamp of `handle_message`: a formatted
text of more than 4000 characters is sent as its first 3996 characters
plus the three-character `...` (total 3999); shorter texts are sent
unchanged; the sent text never exceeds 4000 characters. -/
theorem c3_truncation :
    ∀ t : List Char,
      (t.length > 4000 →
        truncate_for_telegram t = t.take 3996 ++ "...".data ∧
        (truncate_for_telegram t).length = 3999) ∧
      (t.length ≤ 4000 → truncate_for_telegram t = t) ∧
      (truncate_for_telegram t).length ≤ 4000 := by
  intro t
  unfold truncate_for_telegram
  split_ifs with h
  · refine ⟨fun _ => ⟨rfl, ?_⟩, fun hle => absurd h (by omega), ?_⟩ <;>
      simp [List.length_append, List.length_take] <;> omega
  · exact ⟨fun hgt => absurd hgt h, fun _ => rfl, by omega⟩

theorem c3_truncation_witness :
    (List.replicate 4001 'a').length > 4000 ∧
      (truncate_for_telegram (List.replicate 4001 'a')).length = 3999 :=
  ⟨by simp only [List.length_replicate]; omega,
   ((c3_truncation (List.replicate 4001 'a')).1
     (by simp only [List.length_replicate]; omega)).2⟩

/-- Claim C4: the derived user identifier follows the fallback chain
username, then numeric user id, then chat id, then the sentinel; with
the four concrete examples of the specification. -/
theorem c4_user_id_chain :
    (∀ (upd : TgUpdate) (user : TgUser) (name : String),
      upd.effective_user = some user → user.username = some name → name ≠ "" →
      _telegram_user_id upd = "tg_" ++ name) ∧
    (∀ (upd : TgUpdate) (user : TgUser),
      upd.effective_user = some user →
      (user.username = none ∨ user.username = some "") → user.id ≠ 0 →
      _telegram_user_id upd = "tg_id_" ++ toString user.id) ∧
    (∀ (upd : TgUpdate) (chat : TgChat),
      upd.effective_user = none → upd.effective_chat = some chat → chat.id ≠ 0 →
      _telegram_user_id upd = "tg_chat_" ++ toString chat.id) ∧
    _telegram_user_id ⟨none, some ⟨some "alice", 42⟩, some ⟨7⟩⟩ = "tg_alice" ∧
    _telegram_user_id ⟨none, some ⟨none, 42⟩, some ⟨7⟩⟩ = "tg_id_42" ∧
    _telegram_user_id ⟨none, none, some ⟨7⟩⟩ = "tg_chat_7" ∧
    _telegram_user_id ⟨none, none, none⟩ = "tg_unknown" := by
  refine ⟨?_, ?_, ?_, by decide, by decide, by decide, by decide⟩
  · intro upd user name h1 h2 h3
    simp [_telegram_user_id, h1, h2, h3]
  · rintro upd user h1 (h2 | h2) h3 <;>
      simp [_telegram_user_id, userIdFromNumeric, h1, h2, h3]
  · intro upd chat h1 h2 h3
    simp [_telegram_user_id, userIdFromChat, h1, h2, h3]

theorem c4_user_id_witness :
    ("alice" : String) ≠ "" ∧
      _telegram_user_id ⟨none, some ⟨some "alice", 42⟩, some ⟨7⟩⟩ = "tg_" ++ "alice" :=
  ⟨by decide, c4_user_id_chain.1 ⟨none, some ⟨some "alice", 42⟩, some ⟨7⟩⟩
    ⟨some "alice", 42⟩ "alice" rfl rfl (by decide)⟩

/-- Claim C5: an inbound event with no message, no text, or an empty
text makes `handle_message` a no-op: no action is performed and no
error is raised. -/
theorem c5_no_text_noop :
    ∀ (upd : TgUpdate) (env : BotEnv),
      (upd.message = none ∨
        ∃ m, upd.message = some m ∧ (m.text = none ∨ m.text = some "")) →
      handle_message upd env = Except.ok [] := by
  rintro upd env (h | ⟨m, hm, (ht | ht)⟩)
  · simp [handle_message, h]
  · simp [handle_message, hm, ht]
  · simp [handle_message, hm, ht]

theorem c5_no_text_noop_witness :
    handle_message ⟨none, none, none⟩ ⟨true, BackendOutcome.networkError⟩ = Except.ok [] :=
  c5_no_text_noop ⟨none, none, none⟩ ⟨true, BackendOutcome.networkError⟩ (Or.inl rfl)

/-- Claim C6 (evaluation at the failing input): `handle_message` does
not guard the typing-indicator send, so when `send_chat_action` fails
the exception propagates: the handler aborts with neither a backend
call nor a reply, although the same update with a succeeding
typing-indicator send completes the full pipeline.  This contradicts
the best-effort reading (and the source comment `Optional typing
indicator`). -/
theorem c6_typing_failure_aborts :
    handle_message ⟨some ⟨some "hi"⟩, some ⟨some "alice", 1⟩, some ⟨7⟩⟩
        ⟨false, BackendOutcome.success ⟨some "ok"⟩⟩ = Except.error () ∧
    handle_message ⟨some ⟨some "hi"⟩, some ⟨some "alice", 1⟩, some ⟨7⟩⟩
        ⟨true, BackendOutcome.success ⟨some "ok"⟩⟩ =
      Except.ok [BotAction.sendChatAction 7 "typing",
                 BotAction.backendCall "tg_alice" "hi",
                 BotAction.reply "ok"] := by
  exact ⟨rfl, rfl⟩

/-- Claim C7: the formatter applied to `"**Title**\n1. foo\nWhen:
tomorrow"` yields the bold marker (asterisks removed) before `Title`,
the numbered-list marker with the digit before `foo`, and the
calendar-field marker before `When:`. -/
theorem c7_format_example :
    _format_for_telegram "**Title**\n1. foo\nWhen: tomorrow".data =
      boldMarker ++ " Title\n\n1".data ++ numListMarker ++ " foo\n".data ++
        whenMarker ++ " When: tomorrow".data ∧
    (∃ s t, _format_for_telegram "**Title**\n1. foo\nWhen: tomorrow".data =
      s ++ (boldMarker ++ ' ' :: "Title".data) ++ t) ∧
    (∃ s t, _format_for_telegram "**Title**\n1. foo\nWhen: tomorrow".data =
      s ++ ('1' :: numListMarker ++ ' ' :: "foo".data) ++ t) ∧
    (∃ s t, _format_for_telegram "**Title**\n1. foo\nWhen: tomorrow".data =
      s ++ (whenMarker ++ ' ' :: "When:".data) ++ t) := by
  refine ⟨by decide,
    ⟨[], "\n\n1".data ++ numListMarker ++ " foo\n".data ++ whenMarker ++ " When: tomorrow".data,
      by decide⟩,
    ⟨boldMarker ++ " Title\n\n".data, "\n".data ++ whenMarker ++ " When: tomorrow".data,
      by decide⟩,
    ⟨boldMarker ++ " Title\n\n1".data ++ numListMarker ++ " foo\n".data, " tomorrow".data,
      by decide⟩⟩

/-- Claim C8: every formatter output is free of runs of three or more
consecutive newlines and of leading or trailing whitespace; in
particular `"a\n\n\n\nb"` is collapsed to `"a\n\nb"`. -/
theorem c8_format_whitespace :
    (∀ u : List Char,
      (∀ s t : List Char,
        _format_for_telegram u ≠ s ++ '\n' :: '\n' :: '\n' :: t) ∧
      (∀ c, (_format_for_telegram u).head? = some c → isPySpace c = false) ∧
      (∀ c, (_format_for_telegram u).getLast? = some c → isPySpace c = false)) ∧
    _format_for_telegram "a\n\n\n\nb".data = "a\n\nb".data := by
  refine ⟨fun u => ⟨fun s t => ?_, fun c h => ?_, fun c h => ?_⟩, by decide⟩
  · exact strip_collapse_ne _ s t
  · exact pyStripChars_head _ c h
  · exact pyStripChars_getLast _ c h

theorem c8_format_whitespace_witness :
    (_format_for_telegram "abc".data).head? = some 'a' ∧ isPySpace 'a' = false :=
  ⟨by decide, (c8_format_whitespace.1 "abc".data).2.1 'a' (by decide)⟩

/-- Claim C9: `_load_config` fails (a `RuntimeError`) exactly when the
token variable is absent or empty, and an absent base URL or log level
falls back to `http://localhost:8000` and INFO (level 20). -/
theorem c9_load_config :
    ∀ env : ConfigEnv,
      ((env.telegram_bot_token = none ∨ env.telegram_bot_token = some "") ↔
        _load_config env = Except.error tokenMissingMsg) ∧
      (∀ tok, env.telegram_bot_token = some tok → tok ≠ "" →
        env.bcn_api_base_url = none → env.bcn_bot_log_level = none →
        _load_config env = Except.ok (tok, "http://localhost:8000", 20)) := by
  intro env
  constructor
  · constructor
    · rintro (h | h) <;> simp [_load_config, h]
    · intro h
      rcases henv : env.telegram_bot_token with _ | tok
      · exact Or.inl rfl
      · by_cases htok : tok = ""
        · subst htok
          exact Or.inr rfl
        · exfalso
          simp [_load_config, henv, htok] at h
  · intro tok h1 h2 h3 h4
    simp [_load_config, h1, h2, h3, h4]
    decide

theorem c9_load_config_witness :
    _load_config ⟨none, some "http://x", some "DEBUG"⟩ = Except.error tokenMissingMsg ∧
    _load_config ⟨some "t", none, none⟩ = Except.ok ("t", "http://localhost:8000", 20) :=
  ⟨(c9_load_config ⟨none, some "http://x", some "DEBUG"⟩).1.mp (Or.inl rfl),
   (c9_load_config ⟨some "t", none, none⟩).2 "t" rfl (by decide) rfl rfl⟩

theorem pyStrip_all_space (t : String) (h : ∀ c ∈ t.data, isPySpace c = true) :
    pyStrip t = "" := by
  have h1 : t.data.dropWhile isPySpace = [] := List.dropWhile_eq_nil_iff.mpr h
  simp [pyStrip, pyStripChars, h1]

/-- Claim C10: a non-empty but all-whitespace message text is not
ignored: the raw text passes the emptiness check before trimming, so
the handler trims it to the empty string, calls the backend with an
empty message, and sends a reply. -/
theorem c10_whitespace_only_processed :
    ∀ (upd : TgUpdate) (m : TgMessage) (t : String) (chat : TgChat) (env : BotEnv),
      upd.message = some m → m.text = some t → t ≠ "" →
      (∀ c ∈ t.data, isPySpace c = true) →
      upd.effective_chat = some chat → env.typingOk = true →
      handle_message upd env =
        Except.ok [BotAction.sendChatAction chat.id "typing",
                   BotAction.backendCall (_telegram_user_id upd) "",
                   BotAction.reply (String.mk (truncate_for_telegram
                     (formatForTelegramStr
                       (call_bcn_api (_telegram_user_id upd) "" env.outcome)).data))] := by
  intro upd m t chat env hm ht htne hws hchat htyping
  have hstrip : pyStrip t = "" := pyStrip_all_space t hws
  simp [handle_message, hm, ht, htne, hchat, htyping, hstrip]

theorem c10_whitespace_only_witness :
    handle_message ⟨some ⟨some " "⟩, some ⟨some "alice", 1⟩, some ⟨7⟩⟩
        ⟨true, BackendOutcome.success ⟨some "hi"⟩⟩ =
      Except.ok [BotAction.sendChatAction 7 "typing",
                 BotAction.backendCall
                   (_telegram_user_id ⟨some ⟨some " "⟩, some ⟨some "alice", 1⟩, some ⟨7⟩⟩) "",
                 BotAction.reply (String.mk (truncate_for_telegram
                   (formatForTelegramStr
                     (call_bcn_api
                       (_telegram_user_id ⟨some ⟨some " "⟩, some ⟨some "alice", 1⟩, some ⟨7⟩⟩)
                       "" (BackendOutcome.success ⟨some "hi"⟩))).data))] :=
  c10_whitespace_only_processed ⟨some ⟨some " "⟩, some ⟨some "alice", 1⟩, some ⟨7⟩⟩
    ⟨some " "⟩ " " ⟨7⟩ ⟨true, BackendOutcome.success ⟨some "hi"⟩⟩
    rfl rfl (by decide) (by decide) rfl rfl

end BcnBot
